import Mathlib

/-
Verification of goodreads_grapher (src/goodreads_grapher/grapher.py) against its
natural-language specification.

The program is a pipeline: URL → entity id → paginated retrieval from the
Goodreads API → record normalization into a pandas DataFrame → filter →
sort/cutoff → matplotlib scatter rendering, with an interactive cutoff loop.

Shallow embedding conventions:
- DataFrames of rows become Lean lists of structures.
- Python slicing `df[:cut_off]` (positional row slice) is `pySlice`.
- pandas `sort_values(["average_rating"], ascending=False)` is modelled after
  pandas nargsort: for ascending=False pandas reverses the values and the index
  array, runs an ascending argsort, and reverses the resulting indexer again.
  The ascending argsort is modelled as an insertion sort.  That model is
  faithful only in the small-array regime: numpy's default kind="quicksort"
  (introsort) runs insertion sort below its small-array threshold (about 16
  elements) and an UNSTABLE pivoting sort above it, so the model's tie
  behaviour is trusted only for inputs below the threshold.  Accordingly, no
  theorem in this file asserts stability of the program's sort: the sort is
  used either compositionally (appearing identically on both sides of an
  equation) or on concrete inputs of at most three rows.
- float division of pandas integer columns never raises; sum/count with
  count == 0 gives NaN or inf, modelled as `none` in an `Option ℚ` field.
- Fallible code returns `Except GrapherError`; the error names follow the
  specification's error taxonomy, each constructor documenting the concrete
  Python exception it stands for.
-/

namespace GoodreadsGrapher

/-- Error taxonomy.  The spec names `MalformedUrlError`, `RemoteServiceError`
and `MalformedRecordError`; at the Python level the extractor failure is an
`AttributeError` on `None.group`, the interactive-loop parse failure is a
`ValueError` from `int`, the missing-column failure on an empty DataFrame is an
`AttributeError`, and `input()` at the end of the input stream is `EOFError`. -/
inductive GrapherError where
  | MalformedUrlError
  | RemoteServiceError
  | MalformedRecordError
  | ValueError
  | AttributeError
  | EOFError
deriving DecidableEq, Repr

/-- One row of the DataFrame handed to the graphing functions: a display label
column and the `average_rating` column (modelled as ℚ in place of float). -/
structure Row where
  title : String
  averageRating : ℚ
deriving DecidableEq, Repr

/-- The two orderings of §4.5: the order the service returned, or rating
descending (`--sort-by-rating`). -/
inductive SortMode where
  | popularityOrder
  | ratingDescending
deriving DecidableEq, Repr

/-- Python positional slice `l[:cut]` for an `int` cut: a nonnegative cut keeps
the first `cut` elements; a negative cut keeps all but the last `-cut`
elements (empty result when `-cut` exceeds the length). -/
def pySlice (cut : Int) (l : List α) : List α :=
  if 0 ≤ cut then l.take cut.toNat
  else l.take (l.length - (-cut).toNat)

/-- Ascending insertion step on `average_rating`: the new element is placed
before the first element whose rating is not smaller.  This is the insertion
sort numpy's argsort runs on partitions below its small-array threshold; it is
NOT a model of the unstable pivoting sort used above the threshold, so its tie
behaviour is only meaningful for small inputs. -/
def insert_rating_asc (x : Row) : List Row → List Row
  | [] => [x]
  | y :: ys =>
    if y.averageRating < x.averageRating then y :: insert_rating_asc x ys
    else x :: y :: ys

/-- Ascending sort on `average_rating`, standing in for the ascending argsort
inside pandas nargsort.  Faithful to numpy's default kind="quicksort" only
below the small-array threshold, where that argsort is insertion sort; above
the threshold the real argsort reorders equal keys and this model does not
follow it, so theorems must not rely on this sort's tie order for large
inputs. -/
def sort_rating_asc : List Row → List Row
  | [] => []
  | x :: xs => insert_rating_asc x (sort_rating_asc xs)

/-- pandas `sort_values(["average_rating"], ascending=False)`: nargsort
reverses the input, argsorts ascending, and reverses the indexer again.  The
reverse/argsort/reverse scheme is pandas source; the tie behaviour of the
composite inherits `sort_rating_asc`'s small-array caveat and is only trusted
for inputs below numpy's small-array threshold. -/
def sort_values_rating_desc (l : List Row) : List Row :=
  (sort_rating_asc l.reverse).reverse

/-- `graph_avg_rating_by_series_order` (grapher.py:185-197): selects the label
and rating columns, slices `[:cut_off]`, and plots in the given order. -/
def graph_avg_rating_by_series_order (df : List Row) (cut_off : Int) : List Row :=
  pySlice cut_off df

/-- `graph_series_sort_by_average_rating` (grapher.py:200-214): slices the
DataFrame with `[:cut_off]` FIRST and then sorts by average_rating
descending. -/
def graph_series_sort_by_average_rating (df : List Row) (cut_off : Int) : List Row :=
  sort_values_rating_desc (pySlice cut_off df)

/-- `graph_avg_rating_by_popularity` (grapher.py:357-370): same slice, in the
order the service returned. -/
def graph_avg_rating_by_popularity (df : List Row) (cut_off : Int) : List Row :=
  pySlice cut_off df

/-- `graph_author_sort_by_average_rating` (grapher.py:339-354): slice
`[:cut_off]` first, then sort by average_rating descending. -/
def graph_author_sort_by_average_rating (df : List Row) (cut_off : Int) : List Row :=
  sort_values_rating_desc (pySlice cut_off df)

/-- The ranking operation of §4.5, as the code implements it: the rows a single
render receives under the given sort mode and cutoff. -/
def rank (records : List Row) (mode : SortMode) (cut_off : Int) : List Row :=
  match mode with
  | .popularityOrder => graph_avg_rating_by_series_order records cut_off
  | .ratingDescending => graph_series_sort_by_average_rating records cut_off

/-- The sort a mode applies, separated from the slice, for stating how the
cutoff composes with the sort. -/
def applySortMode : SortMode → List Row → List Row
  | .popularityOrder => fun l => l
  | .ratingDescending => sort_values_rating_desc

/-- Digit run to a number, as `int` on a string of digits. -/
def digitsToNat (ds : List Char) : Nat :=
  ds.foldl (fun n c => 10 * n + (c.toNat - 48)) 0

/-- Leading and trailing whitespace removal (Python `int` ignores surrounding
whitespace in its string argument). -/
def trimSpaces (cs : List Char) : List Char :=
  ((cs.dropWhile Char.isWhitespace).reverse.dropWhile Char.isWhitespace).reverse

/-- Python `int(s)` on a string: optional sign followed by a nonempty digit
run, surrounding whitespace ignored; `none` models the `ValueError` raised on
any other string. -/
def pyIntOfString (s : String) : Option Int :=
  match trimSpaces s.toList with
  | [] => none
  | '-' :: ds =>
    if ds ≠ [] ∧ ds.all Char.isDigit then some (-(digitsToNat ds : Int)) else none
  | '+' :: ds =>
    if ds ≠ [] ∧ ds.all Char.isDigit then some (digitsToNat ds : Int) else none
  | c :: ds =>
    if (c :: ds).all Char.isDigit then some (digitsToNat (c :: ds) : Int) else none

/-- `int(input("New cut off number (Enter to cancel):") or 0)`
(grapher.py:176, 305): an empty line becomes `0` through `or 0`; any other
line goes to `int`, which raises `ValueError` when it is not an integer
literal. -/
def newCutoffInput (line : String) : Except GrapherError Int :=
  if line = "" then .ok 0
  else
    match pyIntOfString line with
    | some n => .ok n
    | none => .error .ValueError

/-- The single render a loop iteration performs: one of the two graph functions
according to `sort_by_rating` (grapher.py:171-174, 300-303). -/
def renderFrame (df : List Row) (sortByRating : Bool) (cut_off : Int) : List Row :=
  if sortByRating then graph_series_sort_by_average_rating df cut_off
  else graph_avg_rating_by_series_order df cut_off

/-- The interactive cutoff loop of `graph_series`/`graph_author`
(grapher.py:170-182, 299-311), run against a scripted list of input lines.
Returns the sequence of rendered row sets, or the error that escaped the loop.
`input()` on an exhausted script is `EOFError`; a new cutoff of `0` (or the
empty line, via `or 0`) breaks out of the loop; any other parsed integer
becomes the cutoff of the next iteration. -/
def cutoffLoop (df : List Row) (sortByRating promptNewCutoff : Bool) :
    List String → Int → Except GrapherError (List (List Row))
  | inputs, cut_off =>
    if promptNewCutoff then
      match inputs with
      | [] => .error .EOFError
      | line :: rest =>
        match newCutoffInput line with
        | .error e => .error e
        | .ok n =>
          if n = 0 then .ok [renderFrame df sortByRating cut_off]
          else
            match cutoffLoop df sortByRating promptNewCutoff rest n with
            | .error e => .error e
            | .ok rs => .ok (renderFrame df sortByRating cut_off :: rs)
    else .ok [renderFrame df sortByRating cut_off]

/-- Decidable equality for `Except` results, so concrete pipeline outcomes can
be evaluated by `decide`. -/
instance {ε α : Type} [DecidableEq ε] [DecidableEq α] : DecidableEq (Except ε α)
  | .error a, .error b =>
    if h : a = b then .isTrue (by rw [h])
    else .isFalse (by intro hc; injection hc; contradiction)
  | .error _, .ok _ => .isFalse (by intro hc; exact Except.noConfusion hc)
  | .ok _, .error _ => .isFalse (by intro hc; exact Except.noConfusion hc)
  | .ok a, .ok b =>
    if h : a = b then .isTrue (by rw [h])
    else .isFalse (by intro hc; injection hc; contradiction)

/-- The record (A, 3.5) of the specification's ranking example. -/
def rowA : Row := { title := "A", averageRating := 3.5 }

/-- The record (B, 4.0) of the specification's ranking example. -/
def rowB : Row := { title := "B", averageRating := 4 }

/-- The record (C, 4.0) of the specification's ranking example. -/
def rowC : Row := { title := "C", averageRating := 4 }

/-- C1 counterexample: the claim fails on the code in two ways.  With
`cut_off = -1` (the command-line default, "unlimited" per the spec) the Python
slice `df[:cut_off]` drops the LAST record, so `rank` on three records returns
only two; and in `RatingDescending` mode the slice is applied BEFORE the sort,
so with cutoff 1 on [(A,3.5),(B,4.0)] the result is [A] (first record of the
input order, then sorted), not [B] (first record of the post-sort order). -/
theorem c1_cutoff_counterexample :
    rank [rowA, rowB, rowC] .popularityOrder (-1) = [rowA, rowB] ∧
    rank [rowA, rowB, rowC] .popularityOrder (-1) ≠ [rowA, rowB, rowC] ∧
    rank [rowA, rowB] .ratingDescending 1 = [rowA] ∧
    rank [rowA, rowB] .ratingDescending 1 ≠ [rowB] := by
  refine ⟨?_, ?_, ?_, ?_⟩ <;>
    norm_num [rank, graph_avg_rating_by_series_order,
      graph_series_sort_by_average_rating, pySlice, sort_values_rating_desc,
      sort_rating_asc, insert_rating_asc, rowA, rowB, rowC]

/-- C1 amended: `rank(records, mode, cutoff)` applies the Python slice
`records[:cutoff]` BEFORE the mode's sort, so `cutoff >= 0` keeps the first
`cutoff` records of the PRE-sort input order (which `RatingDescending` then
sorts), while `cutoff < 0` is not unlimited: it drops the last `|cutoff|`
records (keeping `max 0 (length + cutoff)`).  `cutoff == 0` still yields an
empty RankedSet, and the visualization loop hands that empty set to the chart
renderer and returns normally rather than raising an error. -/
theorem c1_cutoff_slice_presort (records : List Row) (mode : SortMode)
    (cut : Int) (sortB : Bool) (inputs : List String) :
    rank records mode 0 = [] ∧
    (0 ≤ cut → rank records mode cut = applySortMode mode (records.take cut.toNat)) ∧
    (cut < 0 →
      rank records mode cut =
        applySortMode mode (records.take (records.length - (-cut).toNat))) ∧
    cutoffLoop records sortB false inputs 0 = .ok [[]] := by
  have hslice : ∀ c : Int, 0 ≤ c → pySlice c records = records.take c.toNat := by
    intro c hc
    rw [pySlice, if_pos hc]
  have hrank : ∀ l : List Row, ∀ c : Int, rank l mode c = applySortMode mode (pySlice c l) := by
    intro l c
    cases mode <;>
      rfl
  refine ⟨?_, ?_, ?_, ?_⟩
  · rw [hrank, hslice 0 le_rfl]
    cases mode <;> simp [applySortMode, sort_values_rating_desc, sort_rating_asc]
  · intro hc
    rw [hrank, hslice cut hc]
  · intro hc
    rw [hrank, pySlice, if_neg (not_le.mpr hc)]
  · have hrender : renderFrame records sortB 0 = [] := by
      cases sortB <;>
        simp [renderFrame, graph_avg_rating_by_series_order,
          graph_series_sort_by_average_rating, pySlice, sort_values_rating_desc,
          sort_rating_asc]
    rw [cutoffLoop.eq_def]
    simp [hrender]

/-- C1 witness: the amended cutoff semantics evaluated at cutoff 1 on two
records, with the nonnegativity hypothesis discharged concretely. -/
theorem c1_cutoff_slice_presort_witness :
    0 ≤ (1 : Int) ∧
    rank [rowA, rowB] .ratingDescending 1 =
      applySortMode .ratingDescending ([rowA, rowB].take (1 : Int).toNat) :=
  ⟨by decide, (c1_cutoff_slice_presort [rowA, rowB] .ratingDescending 1 false []).2.1 (by decide)⟩

/-- C7 counterexample: a non-integer line at the cutoff prompt does not cancel
the loop; `int(input(...) or 0)` raises `ValueError` on "abc" and the loop run
fails instead of transitioning to Done. -/
theorem c7_noninteger_input_counterexample :
    cutoffLoop [] false true ["abc"] (-1) = .error .ValueError := by decide

/-- C7 amended: only the EMPTY input line is treated as the cancel signal
(through `input(...) or 0`); a non-empty line that is not an integer literal
reaches `int`, which raises `ValueError`, and that error escapes the loop as a
fatal error rather than acting as a cancel. -/
theorem c7_empty_cancels_noninteger_fatal (df : List Row) (sortB : Bool)
    (cut : Int) (rest : List String) (line : String) :
    cutoffLoop df sortB true ("" :: rest) cut = .ok [renderFrame df sortB cut] ∧
    (line ≠ "" → pyIntOfString line = none →
      cutoffLoop df sortB true (line :: rest) cut = .error .ValueError) := by
  constructor
  · rw [cutoffLoop, if_pos rfl]
    have h0 : newCutoffInput "" = .ok 0 := by rw [newCutoffInput, if_pos rfl]
    rw [h0]
    simp
  · intro hne hparse
    rw [cutoffLoop, if_pos rfl]
    have hval : newCutoffInput line = .error .ValueError := by
      rw [newCutoffInput, if_neg hne, hparse]
    rw [hval]

/-- C7 witness: the amended behaviour at the concrete non-integer line "abc"
(fatal `ValueError`), hypotheses discharged concretely. -/
theorem c7_empty_cancels_noninteger_fatal_witness :
    "abc" ≠ "" ∧ pyIntOfString "abc" = none ∧
    cutoffLoop [rowA] true true ["abc"] 5 = .error .ValueError :=
  ⟨by decide, by decide,
    (c7_empty_cancels_noninteger_fatal [rowA] true 5 [] "abc").2 (by decide) (by decide)⟩

/-- Python `str.replace(old, "")`: removes every non-overlapping occurrence of
`old`, scanning left to right.  The fuel argument (initially the string
length) only bounds the recursion; every step consumes at least one
character. -/
def stripGo (pat : List Char) : Nat → List Char → List Char
  | 0, l => l
  | _ + 1, [] => []
  | fuel + 1, c :: cs =>
    if pat ≠ [] ∧ (c :: cs).take pat.length = pat then
      stripGo pat fuel ((c :: cs).drop pat.length)
    else c :: stripGo pat fuel cs

/-- `s.replace(pat, "")` on character lists. -/
def stripPattern (pat l : List Char) : List Char := stripGo pat l.length l

/-- The literal "show/" that the author regex requires before the id. -/
def showChars : List Char := ['s', 'h', 'o', 'w', '/']

/-- One position of the author regex `.*show\/(\d+)\..*` : the remainder
starts with "show/", then a nonempty maximal digit run, then a literal dot
(backtracking inside `\d+` cannot help, because a shorter digit run would put
a digit where the dot is required). -/
def matchAuthorAt (cs : List Char) : Option Nat :=
  if cs.take 5 = showChars ∧ (cs.drop 5).takeWhile Char.isDigit ≠ [] ∧
      ((cs.drop 5).dropWhile Char.isDigit).head? = some '.' then
    some (digitsToNat ((cs.drop 5).takeWhile Char.isDigit))
  else none

/-- `re.search` for the author regex.  The leading greedy `.*` makes the
engine prefer the rightmost matching position, so later suffixes are tried
first. -/
def searchAuthorId : List Char → Option Nat
  | [] => none
  | c :: cs =>
    match searchAuthorId cs with
    | some n => some n
    | none => matchAuthorAt (c :: cs)

/-- One position of the series regex `(\d+)-.*` : a nonempty maximal digit run
followed by a literal hyphen. -/
def matchSeriesAt (cs : List Char) : Option Nat :=
  if cs.takeWhile Char.isDigit ≠ [] ∧
      (cs.dropWhile Char.isDigit).head? = some '-' then
    some (digitsToNat (cs.takeWhile Char.isDigit))
  else none

/-- `re.search` for the series regex: leftmost matching position. -/
def searchSeriesId : List Char → Option Nat
  | [] => none
  | c :: cs =>
    match matchSeriesAt (c :: cs) with
    | some n => some n
    | none => searchSeriesId cs

/-- The author URL path base removed by `url.replace(...)` (grapher.py:103). -/
def authorBaseChars : List Char := "https://www.goodreads.com/author/".toList

/-- The series URL path base removed by `url.replace(...)` (grapher.py:115). -/
def seriesBaseChars : List Char := "https://www.goodreads.com/series/".toList

/-- `author_url_to_author_id` (grapher.py:96-105): strip the base, search the
regex, convert the captured digits.  When the pattern is absent `re.search`
returns `None` and `.group(1)` raises (`AttributeError` at the Python level,
the taxonomy's `MalformedUrlError`).  Pure function of the URL string. -/
def author_url_to_author_id (url : String) : Except GrapherError Nat :=
  match searchAuthorId (stripPattern authorBaseChars url.toList) with
  | some n => .ok n
  | none => .error .MalformedUrlError

/-- `series_url_to_series_id` (grapher.py:108-117), same shape as the author
extractor with the series regex. -/
def series_url_to_series_id (url : String) : Except GrapherError Nat :=
  match searchSeriesId (stripPattern seriesBaseChars url.toList) with
  | some n => .ok n
  | none => .error .MalformedUrlError

/-- Declarative presence of the author identifier pattern: somewhere in the
string, "show/" followed by a nonempty digit run followed by a dot. -/
def authorShowPattern (cs : List Char) : Prop :=
  ∃ pre ds post, cs = pre ++ (showChars ++ (ds ++ '.' :: post)) ∧ ds ≠ [] ∧
    ∀ c ∈ ds, c.isDigit = true

/-- Declarative presence of the series identifier pattern: somewhere in the
string, a nonempty digit run followed by a hyphen. -/
def seriesIdPattern (cs : List Char) : Prop :=
  ∃ pre ds post, cs = pre ++ (ds ++ '-' :: post) ∧ ds ≠ [] ∧
    ∀ c ∈ ds, c.isDigit = true

theorem takeWhile_append_not {p : Char → Bool} (ds rest : List Char)
    (hall : ∀ c ∈ ds, p c = true)
    (hhd : ∀ c, rest.head? = some c → p c = false) :
    (ds ++ rest).takeWhile p = ds ∧ (ds ++ rest).dropWhile p = rest := by
  induction ds with
  | nil =>
    simp only [List.nil_append]
    cases rest with
    | nil => simp
    | cons c t =>
      have hc := hhd c rfl
      simp [List.takeWhile_cons, List.dropWhile_cons, hc]
  | cons d ds ih =>
    have hd := hall d (List.mem_cons_self _ _)
    have ihh := ih fun c hc => hall c (List.mem_cons_of_mem _ hc)
    simp [List.takeWhile_cons, List.dropWhile_cons, hd, ihh.1, ihh.2]

theorem matchAuthorAt_sound {cs : List Char} {n : Nat}
    (h : matchAuthorAt cs = some n) :
    ∃ ds post, cs = showChars ++ (ds ++ '.' :: post) ∧ ds ≠ [] ∧
      ∀ c ∈ ds, c.isDigit = true := by
  by_cases hc : cs.take 5 = showChars ∧ (cs.drop 5).takeWhile Char.isDigit ≠ [] ∧
      ((cs.drop 5).dropWhile Char.isDigit).head? = some '.'
  · obtain ⟨h5, hne, hdot⟩ := hc
    cases hdw : (cs.drop 5).dropWhile Char.isDigit with
    | nil => rw [hdw] at hdot; exact absurd hdot (by simp)
    | cons c t =>
      rw [hdw] at hdot
      have hcd : c = '.' := by simpa using hdot
      subst hcd
      refine ⟨(cs.drop 5).takeWhile Char.isDigit, t, ?_, hne,
        fun c hc2 => List.mem_takeWhile_imp hc2⟩
      conv_lhs => rw [← List.take_append_drop 5 cs]
      rw [h5, ← hdw, List.takeWhile_append_dropWhile]
  · rw [matchAuthorAt, if_neg hc] at h
    exact absurd h (by simp)

theorem searchAuthorId_sound : ∀ {cs : List Char} {n : Nat},
    searchAuthorId cs = some n → authorShowPattern cs := by
  intro cs
  induction cs with
  | nil => intro n h; exact absurd h (by rw [searchAuthorId]; simp)
  | cons c cs ih =>
    intro n h
    rw [searchAuthorId] at h
    cases hrec : searchAuthorId cs with
    | some m =>
      obtain ⟨pre, ds, post, heq, hne, hd⟩ := ih hrec
      exact ⟨c :: pre, ds, post, by rw [List.cons_append, heq], hne, hd⟩
    | none =>
      rw [hrec] at h
      simp only at h
      obtain ⟨ds, post, heq, hne, hd⟩ := matchAuthorAt_sound h
      exact ⟨[], ds, post, by rw [List.nil_append, heq], hne, hd⟩

theorem matchAuthorAt_complete (ds post : List Char) (hne : ds ≠ [])
    (hd : ∀ c ∈ ds, c.isDigit = true) :
    matchAuthorAt (showChars ++ (ds ++ '.' :: post)) = some (digitsToNat ds) := by
  have h5 : (showChars ++ (ds ++ '.' :: post)).take 5 = showChars := by
    rw [show (5 : Nat) = showChars.length from rfl]
    exact List.take_left showChars (ds ++ '.' :: post)
  have hdrop : (showChars ++ (ds ++ '.' :: post)).drop 5 = ds ++ '.' :: post := by
    rw [show (5 : Nat) = showChars.length from rfl]
    exact List.drop_left showChars (ds ++ '.' :: post)
  have hspan := takeWhile_append_not (p := Char.isDigit) ds ('.' :: post) hd
    (by intro c hc; simp only [List.head?] at hc; injection hc with hc; rw [← hc]; decide)
  have hcond : (showChars ++ (ds ++ '.' :: post)).take 5 = showChars ∧
      ((showChars ++ (ds ++ '.' :: post)).drop 5).takeWhile Char.isDigit ≠ [] ∧
      (((showChars ++ (ds ++ '.' :: post)).drop 5).dropWhile Char.isDigit).head? =
        some '.' := by
    refine ⟨h5, ?_, ?_⟩
    · rw [hdrop, hspan.1]; exact hne
    · rw [hdrop, hspan.2]; rfl
  rw [matchAuthorAt, if_pos hcond, hdrop, hspan.1]

theorem searchAuthorId_complete : ∀ (pre ds post : List Char), ds ≠ [] →
    (∀ c ∈ ds, c.isDigit = true) →
    ∃ n, searchAuthorId (pre ++ (showChars ++ (ds ++ '.' :: post))) = some n := by
  intro pre
  induction pre with
  | nil =>
    intro ds post hne hd
    have hrw : showChars ++ (ds ++ '.' :: post) =
        's' :: ('h' :: 'o' :: 'w' :: '/' :: (ds ++ '.' :: post)) := rfl
    rw [List.nil_append, hrw, searchAuthorId]
    cases hrec : searchAuthorId ('h' :: 'o' :: 'w' :: '/' :: (ds ++ '.' :: post)) with
    | some m => exact ⟨m, rfl⟩
    | none =>
      refine ⟨digitsToNat ds, ?_⟩
      simp only
      rw [← hrw]
      exact matchAuthorAt_complete ds post hne hd
  | cons a pre ih =>
    intro ds post hne hd
    obtain ⟨n, hn⟩ := ih ds post hne hd
    refine ⟨n, ?_⟩
    rw [List.cons_append, searchAuthorId, hn]

theorem matchSeriesAt_sound {cs : List Char} {n : Nat}
    (h : matchSeriesAt cs = some n) :
    ∃ ds post, cs = ds ++ '-' :: post ∧ ds ≠ [] ∧ ∀ c ∈ ds, c.isDigit = true := by
  by_cases hc : cs.takeWhile Char.isDigit ≠ [] ∧
      (cs.dropWhile Char.isDigit).head? = some '-'
  · obtain ⟨hne, hdash⟩ := hc
    cases hdw : cs.dropWhile Char.isDigit with
    | nil => rw [hdw] at hdash; exact absurd hdash (by simp)
    | cons c t =>
      rw [hdw] at hdash
      have hcd : c = '-' := by simpa using hdash
      subst hcd
      refine ⟨cs.takeWhile Char.isDigit, t, ?_, hne,
        fun c hc2 => List.mem_takeWhile_imp hc2⟩
      rw [← hdw, List.takeWhile_append_dropWhile]
  · rw [matchSeriesAt, if_neg hc] at h
    exact absurd h (by simp)

theorem matchSeriesAt_complete (ds post : List Char) (hne : ds ≠ [])
    (hd : ∀ c ∈ ds, c.isDigit = true) :
    matchSeriesAt (ds ++ '-' :: post) = some (digitsToNat ds) := by
  have hspan := takeWhile_append_not (p := Char.isDigit) ds ('-' :: post) hd
    (by intro c hc; simp only [List.head?] at hc; injection hc with hc; rw [← hc]; decide)
  have hcond : (ds ++ '-' :: post).takeWhile Char.isDigit ≠ [] ∧
      ((ds ++ '-' :: post).dropWhile Char.isDigit).head? = some '-' := by
    refine ⟨?_, ?_⟩
    · rw [hspan.1]; exact hne
    · rw [hspan.2]; rfl
  rw [matchSeriesAt, if_pos hcond, hspan.1]

theorem searchSeriesId_sound : ∀ {cs : List Char} {n : Nat},
    searchSeriesId cs = some n → seriesIdPattern cs := by
  intro cs
  induction cs with
  | nil => intro n h; exact absurd h (by rw [searchSeriesId]; simp)
  | cons c cs ih =>
    intro n h
    rw [searchSeriesId] at h
    cases hm : matchSeriesAt (c :: cs) with
    | some m =>
      obtain ⟨ds, post, heq, hne, hd⟩ := matchSeriesAt_sound hm
      exact ⟨[], ds, post, by rw [List.nil_append, heq], hne, hd⟩
    | none =>
      rw [hm] at h
      simp only at h
      obtain ⟨pre, ds, post, heq, hne, hd⟩ := ih h
      exact ⟨c :: pre, ds, post, by rw [List.cons_append, heq], hne, hd⟩

theorem searchSeriesId_complete : ∀ (pre ds post : List Char), ds ≠ [] →
    (∀ c ∈ ds, c.isDigit = true) →
    ∃ n, searchSeriesId (pre ++ (ds ++ '-' :: post)) = some n := by
  intro pre
  induction pre with
  | nil =>
    intro ds post hne hd
    cases ds with
    | nil => exact absurd rfl hne
    | cons d ds2 =>
      rw [List.nil_append, List.cons_append, searchSeriesId, ← List.cons_append,
        matchSeriesAt_complete (d :: ds2) post hne hd]
      exact ⟨digitsToNat (d :: ds2), rfl⟩
  | cons a pre ih =>
    intro ds post hne hd
    obtain ⟨n, hn⟩ := ih ds post hne hd
    cases hm : matchSeriesAt (a :: (pre ++ (ds ++ '-' :: post))) with
    | some m => exact ⟨m, by rw [List.cons_append, searchSeriesId, hm]⟩
    | none => exact ⟨n, by rw [List.cons_append, searchSeriesId, hm, hn]⟩

/-- C6: after the URL base is removed, the extractor fails — with the
taxonomy's `MalformedUrlError` (at the Python level, `re.search` returns
`None` and `.group(1)` raises) — exactly when the expected identifier pattern
is absent from the resulting string, for both the author and the series
extractor.  Both extractors are pure Lean functions of the URL string: no
side effects and no network access are modelled because the source performs
none. -/
theorem c6_extractor_error_iff_pattern_absent (url : String) :
    (author_url_to_author_id url = .error .MalformedUrlError ↔
      ¬ authorShowPattern (stripPattern authorBaseChars url.toList)) ∧
    (series_url_to_series_id url = .error .MalformedUrlError ↔
      ¬ seriesIdPattern (stripPattern seriesBaseChars url.toList)) := by
  constructor
  · rw [author_url_to_author_id]
    cases h : searchAuthorId (stripPattern authorBaseChars url.toList) with
    | some n =>
      simp only
      constructor
      · intro hc; exact absurd hc (by simp)
      · intro hc; exact absurd (searchAuthorId_sound h) hc
    | none =>
      simp only
      constructor
      · intro _ hp
        obtain ⟨pre, ds, post, heq, hne, hd⟩ := hp
        obtain ⟨n, hn⟩ := searchAuthorId_complete pre ds post hne hd
        rw [← heq, h] at hn
        exact Option.noConfusion hn
      · intro _; trivial
  · rw [series_url_to_series_id]
    cases h : searchSeriesId (stripPattern seriesBaseChars url.toList) with
    | some n =>
      simp only
      constructor
      · intro hc; exact absurd hc (by simp)
      · intro hc; exact absurd (searchSeriesId_sound h) hc
    | none =>
      simp only
      constructor
      · intro _ hp
        obtain ⟨pre, ds, post, heq, hne, hd⟩ := hp
        obtain ⟨n, hn⟩ := searchSeriesId_complete pre ds post hne hd
        rw [← heq, h] at hn
        exact Option.noConfusion hn
      · intro _; trivial

/-- `DEFAULT_AUTHOR_BOOKS_PER_PAGE` (grapher.py:23). -/
def DEFAULT_AUTHOR_BOOKS_PER_PAGE : Nat := 30

/-- `DEFAULT_SERIES_BOOKS_PER_PAGE` (grapher.py:24). -/
def DEFAULT_SERIES_BOOKS_PER_PAGE : Nat := 100

/-- `math.ceil(t / p)` for natural `t` and positive `p` (exact rational
ceiling; the float division is exact at the magnitudes involved). -/
def ceilDiv (t p : Nat) : Nat := (t + p - 1) / p

/-- One entry of `series_works` after the `work`/`best_book` merge fields used
downstream: title, `user_position`, and the string-typed rating fields already
parsed to integers (`astype(int)`, grapher.py:167-168). -/
structure SeriesWorkEntry where
  title : String
  userPosition : Nat
  ratingsSum : Nat
  ratingsCount : Nat
deriving DecidableEq, Repr

/-- The Catalog Service boundary for `series/show`: a reported
`series_works_count` and the entry list returned for each requested page. -/
structure SeriesService where
  seriesWorksCount : Nat
  seriesWorkEntries : Nat → List SeriesWorkEntry

/-- `pages = math.ceil(int(total) / DEFAULT_SERIES_BOOKS_PER_PAGE) + 1`
(grapher.py:142). -/
def seriesPagesValue (total : Nat) : Nat :=
  ceilDiv total DEFAULT_SERIES_BOOKS_PER_PAGE + 1

/-- The page numbers `graph_series` actually requests: page 1 first, then —
only `if pages > 1` — the pages of `range(2, pages)`, i.e. `2 .. pages - 1`
(grapher.py:139-155).  The exclusive upper bound of `range` cancels the `+ 1`
in `pages`. -/
def seriesFetchedPageNumbers (total : Nat) : List Nat :=
  1 :: (if seriesPagesValue total > 1 then
    List.range' 2 (seriesPagesValue total - 2) else [])

/-- The concatenated `series_work` entries of all requested pages, in page
order (grapher.py:140-155). -/
def seriesRawWorks (svc : SeriesService) : List SeriesWorkEntry :=
  ((seriesFetchedPageNumbers svc.seriesWorksCount).map svc.seriesWorkEntries).flatten

/-- One row of `series_df` after grapher.py:156-169.  `averageRating` is the
float column `ratings_sum / ratings_count`; pandas float division by a zero
count raises nothing and produces NaN (0/0) or inf (positive/0), modelled as
`none`. -/
structure SeriesRecord where
  title : String
  userPosition : Nat
  ratingsSum : Nat
  ratingsCount : Nat
  averageRating : Option ℚ
deriving DecidableEq, Repr

/-- The per-row effect of building `series_df` and assigning
`series_df.average_rating = series_df.ratings_sum / series_df.ratings_count`
(grapher.py:166-169): no row is dropped and no exception is possible. -/
def normalizeSeriesWork (w : SeriesWorkEntry) : SeriesRecord :=
  { title := w.title, userPosition := w.userPosition, ratingsSum := w.ratingsSum,
    ratingsCount := w.ratingsCount,
    averageRating :=
      if w.ratingsCount = 0 then none
      else some ((w.ratingsSum : ℚ) / (w.ratingsCount : ℚ)) }

/-- `pd.DataFrame(series_books)` followed by the column accesses of
grapher.py:167-169.  A DataFrame built from an empty record list has no
columns, so `series_df.ratings_sum` raises `AttributeError`; otherwise every
record is kept. -/
def normalizeSeriesWorks (ws : List SeriesWorkEntry) :
    Except GrapherError (List SeriesRecord) :=
  if ws = [] then .error .AttributeError
  else .ok (ws.map normalizeSeriesWork)

/-- Retrieval plus normalization of `graph_series` (grapher.py:139-169): the
record list handed to the ranking/graphing step. -/
def seriesPipeline (svc : SeriesService) : Except GrapherError (List SeriesRecord) :=
  normalizeSeriesWorks (seriesRawWorks svc)

/-- One `GoodreadsBook` of author mode, reduced to the fields `graph_author`
reads: the credited author ids (`[atr.gid for atr in book.authors]`), the
integer `ratings_count`, the float `average_rating` parsed by the library, and
the display title. -/
structure AuthorBook where
  id : Nat
  titleWithoutSeries : String
  averageRating : ℚ
  ratingsCount : Nat
  authorIds : List Nat
deriving DecidableEq, Repr

/-- The Catalog Service boundary for `author/list`: a reported `@total` and
the book list returned for a request, keyed by the optional `page` parameter
(`none` = no page parameter, which the service answers with page 1). -/
structure AuthorService where
  total : Nat
  pageBooks : Option Nat → List AuthorBook

/-- `author_books_total_pages` (grapher.py:217-227):
`math.ceil(int(total) / DEFAULT_AUTHOR_BOOKS_PER_PAGE) + 1`, where `total` is
read from a request that carries no `page` parameter. -/
def author_books_total_pages (svc : AuthorService) : Nat :=
  ceilDiv svc.total DEFAULT_AUTHOR_BOOKS_PER_PAGE + 1

/-- `author_books_for_page` (grapher.py:230-248): the books of one explicitly
requested page. -/
def author_books_for_page (svc : AuthorService) (page : Nat) : List AuthorBook :=
  svc.pageBooks (some page)

/-- `author_books_all_pages` (grapher.py:251-265): concatenates
`author_books_for_page` over `range(1, author_books_total_pages(...))`, i.e.
pages `1 .. total_pages - 1`. -/
def author_books_all_pages (svc : AuthorService) : List AuthorBook :=
  ((List.range' 1 (author_books_total_pages svc - 1)).map
    (author_books_for_page svc)).flatten

/-- The page numbers author mode requests with an explicit `page` parameter,
as a function of the reported total. -/
def authorFetchedPageNumbers (total : Nat) : List Nat :=
  List.range' 1 (ceilDiv total DEFAULT_AUTHOR_BOOKS_PER_PAGE + 1 - 1)

/-- Every `author/list` request one `graph_author` run issues, in order: the
page-less probe of `author_books_total_pages`, then one request per page of
`author_books_all_pages`. -/
def authorRequestLog (svc : AuthorService) : List (Option Nat) :=
  none :: (List.range' 1 (author_books_total_pages svc - 1)).map some

/-- Whether a logged request returns page-1 data: either it carries no `page`
parameter (the service defaults to page 1) or it names page 1 explicitly. -/
def isPageOneRequest (r : Option Nat) : Bool :=
  decide (r = none ∨ r = some 1)

/-- The author-mode filter (grapher.py:291-296): keep a book iff the queried
author id is among the book's credited author ids AND `ratings_count` is
STRICTLY greater than `min_num_ratings`. -/
def filtered_author_books (author_id min_num_ratings : Nat)
    (books : List AuthorBook) : List AuthorBook :=
  books.filter fun b =>
    decide (author_id ∈ b.authorIds ∧ min_num_ratings < b.ratingsCount)

/-- The top-level driver loop of `main` (grapher.py:392-445) over the URLs of
one batch, parametrized by the per-URL pipeline `f`: there is no try/except,
so the first error propagates out and ends the loop. -/
def driverBatch {α : Type} (f : String → Except GrapherError α) :
    List String → Except GrapherError (List α)
  | [] => .ok []
  | u :: us =>
    match f u with
    | .error e => .error e
    | .ok a =>
      match driverBatch f us with
      | .error e => .error e
      | .ok rest => .ok (a :: rest)

/-- The URLs of a batch for which the driver actually starts the pipeline:
everything before the first failing URL, and the failing URL itself. -/
def attemptedUrls {α : Type} (f : String → Except GrapherError α) :
    List String → List String
  | [] => []
  | u :: us =>
    match f u with
    | .error _ => [u]
    | .ok _ => u :: attemptedUrls f us

/-- A Collection work with 2 ratings summing to 10. -/
def entryOne : SeriesWorkEntry :=
  { title := "w1", userPosition := 1, ratingsSum := 10, ratingsCount := 2 }

/-- A Collection work with 2 ratings summing to 8. -/
def entryTwo : SeriesWorkEntry :=
  { title := "w2", userPosition := 2, ratingsSum := 8, ratingsCount := 2 }

/-- A Collection work with zero ratings. -/
def entryZero : SeriesWorkEntry :=
  { title := "w0", userPosition := 3, ratingsSum := 0, ratingsCount := 0 }

/-- A series listing of 3 works, one of which has zero ratings. -/
def svcThreeWorks : SeriesService :=
  { seriesWorksCount := 3,
    seriesWorkEntries := fun p => if p = 1 then [entryOne, entryTwo, entryZero] else [] }

/-- A series listing that reports a total of 0 and returns empty pages. -/
def emptySeriesService : SeriesService :=
  { seriesWorksCount := 0, seriesWorkEntries := fun _ => [] }

/-- An author listing that reports a total of 0 and returns no books. -/
def emptyAuthorService : AuthorService :=
  { total := 0, pageBooks := fun _ => [] }

/-- An author listing that reports a total of 30. -/
def thirtyAuthorService : AuthorService :=
  { total := 30, pageBooks := fun _ => [] }

/-- A book by author 7 with exactly 1 rating. -/
def bookOneRating : AuthorBook :=
  { id := 11, titleWithoutSeries := "one", averageRating := 4, ratingsCount := 1,
    authorIds := [7] }

/-- A book by author 7 with exactly 2 ratings. -/
def bookTwoRatings : AuthorBook :=
  { id := 12, titleWithoutSeries := "two", averageRating := 3, ratingsCount := 2,
    authorIds := [7] }

/-- C3 counterexample: `graph_series` performs no exclusion of zero-ratings
records.  Three fetched Collection records, one with `ratingsCount == 0`,
produce THREE ranked records, not two; the zero-ratings record stays, with the
undefined (NaN) `averageRating` the float division produces, and no error is
raised. -/
theorem c3_zero_ratings_kept_counterexample :
    seriesPipeline svcThreeWorks = .ok
      [{ title := "w1", userPosition := 1, ratingsSum := 10, ratingsCount := 2,
         averageRating := some 5 },
       { title := "w2", userPosition := 2, ratingsSum := 8, ratingsCount := 2,
         averageRating := some 4 },
       { title := "w0", userPosition := 3, ratingsSum := 0, ratingsCount := 0,
         averageRating := none }] ∧
    (seriesPipeline svcThreeWorks).map List.length ≠ .ok 2 := by
  have h : seriesPipeline svcThreeWorks = .ok
      [{ title := "w1", userPosition := 1, ratingsSum := 10, ratingsCount := 2,
         averageRating := some 5 },
       { title := "w2", userPosition := 2, ratingsSum := 8, ratingsCount := 2,
         averageRating := some 4 },
       { title := "w0", userPosition := 3, ratingsSum := 0, ratingsCount := 0,
         averageRating := none }] := by
    norm_num [seriesPipeline, seriesRawWorks, seriesFetchedPageNumbers,
      seriesPagesValue, ceilDiv, DEFAULT_SERIES_BOOKS_PER_PAGE, svcThreeWorks,
      normalizeSeriesWorks, normalizeSeriesWork, entryOne, entryTwo, entryZero,
      List.range']
    intro hcontra
    exact absurd hcontra (by simp)
  refine ⟨h, ?_⟩
  rw [h]
  simp [Except.map]

/-- C3 amended: normalization drops nothing — every fetched Collection record,
including those with `ratingsCount == 0`, reaches ranking.  The derived
`averageRating` is `ratingsSum / ratingsCount` exactly when
`ratingsCount > 0`, and for a zero-count record it is the undefined float
value (NaN/inf, modelled `none`); the division raises no error either way. -/
theorem c3_no_exclusion_before_ranking (ws : List SeriesWorkEntry) (hne : ws ≠ []) :
    normalizeSeriesWorks ws = .ok (ws.map normalizeSeriesWork) ∧
    (ws.map normalizeSeriesWork).length = ws.length ∧
    ∀ w ∈ ws,
      ((normalizeSeriesWork w).averageRating = none ↔ w.ratingsCount = 0) ∧
      (0 < w.ratingsCount →
        (normalizeSeriesWork w).averageRating =
          some ((w.ratingsSum : ℚ) / (w.ratingsCount : ℚ))) := by
  refine ⟨by rw [normalizeSeriesWorks, if_neg hne], ws.length_map _, ?_⟩
  intro w _
  by_cases h0 : w.ratingsCount = 0
  · constructor
    · rw [normalizeSeriesWork]
      simp [h0]
    · intro hpos
      exact absurd h0 (Nat.pos_iff_ne_zero.mp hpos)
  · constructor
    · rw [normalizeSeriesWork]
      simp [h0]
    · intro _
      rw [normalizeSeriesWork]
      simp [h0]

/-- C3 witness: the amended normalization behaviour at a concrete nonempty
record list containing a zero-ratings record. -/
theorem c3_no_exclusion_before_ranking_witness :
    ([entryOne, entryZero] : List SeriesWorkEntry) ≠ [] ∧
    normalizeSeriesWorks [entryOne, entryZero] =
      .ok ([entryOne, entryZero].map normalizeSeriesWork) :=
  ⟨by decide, (c3_no_exclusion_before_ranking [entryOne, entryZero] (by decide)).1⟩

/-- C4: the author-mode filter keeps a record iff the queried author id is
among its credited author ids AND its ratings count is strictly greater than
`min_num_ratings`; the filter preserves order and, with
`min_num_ratings = 1`, a record with `ratingsCount == 1` is excluded while one
with `ratingsCount == 2` is included. -/
theorem c4_author_filter_strict (author_id min_num_ratings : Nat)
    (books : List AuthorBook) (b : AuthorBook) :
    (b ∈ filtered_author_books author_id min_num_ratings books ↔
      b ∈ books ∧ author_id ∈ b.authorIds ∧ min_num_ratings < b.ratingsCount) ∧
    filtered_author_books 7 1 [bookOneRating, bookTwoRatings] = [bookTwoRatings] := by
  constructor
  · simp [filtered_author_books, List.mem_filter, and_assoc]
  · decide

/-- C5 counterexample: with `T = 100` and page size 100 the mathematically
required page count is 1 and the computed value `pages` is 2, but the
retriever does NOT issue an extra page request: `range(2, pages)` is empty and
exactly one page (page 1) is fetched, so there is no trailing empty page to
tolerate. -/
theorem c5_no_extra_request_counterexample :
    seriesPagesValue 100 = 2 ∧
    seriesFetchedPageNumbers 100 = [1] ∧
    (seriesFetchedPageNumbers 100).length ≠ seriesPagesValue 100 := by decide

theorem ceilDiv_pos (T p : Nat) (hp : 0 < p) (hT : 0 < T) : 0 < ceilDiv T p := by
  rw [ceilDiv, Nat.lt_iff_add_one_le, Nat.le_div_iff_mul_le hp]
  omega

/-- C5 amended: for `T > 0` the computed page count is `ceil(T/P) + 1` in both
modes, but that value is only used as the EXCLUSIVE upper bound of a `range`,
so the pages actually requested are exactly `1 .. ceil(T/P)` — the
mathematically required pages, with no extra trailing request. -/
theorem c5_page_count_exclusive_bound (T : Nat) (hT : 0 < T) :
    seriesPagesValue T = ceilDiv T DEFAULT_SERIES_BOOKS_PER_PAGE + 1 ∧
    seriesFetchedPageNumbers T =
      List.range' 1 (ceilDiv T DEFAULT_SERIES_BOOKS_PER_PAGE) ∧
    (seriesFetchedPageNumbers T).length = ceilDiv T DEFAULT_SERIES_BOOKS_PER_PAGE ∧
    authorFetchedPageNumbers T =
      List.range' 1 (ceilDiv T DEFAULT_AUTHOR_BOOKS_PER_PAGE) ∧
    (authorFetchedPageNumbers T).length = ceilDiv T DEFAULT_AUTHOR_BOOKS_PER_PAGE := by
  have hc : 0 < ceilDiv T DEFAULT_SERIES_BOOKS_PER_PAGE :=
    ceilDiv_pos T _ (by norm_num [DEFAULT_SERIES_BOOKS_PER_PAGE]) hT
  obtain ⟨k, hk⟩ : ∃ k, ceilDiv T DEFAULT_SERIES_BOOKS_PER_PAGE = k + 1 :=
    ⟨ceilDiv T DEFAULT_SERIES_BOOKS_PER_PAGE - 1, by omega⟩
  have hfetch : seriesFetchedPageNumbers T =
      List.range' 1 (ceilDiv T DEFAULT_SERIES_BOOKS_PER_PAGE) := by
    rw [seriesFetchedPageNumbers, seriesPagesValue, hk,
      if_pos (by omega : k + 1 + 1 > 1)]
    have h2 : k + 1 + 1 - 2 = k := by omega
    rw [h2, List.range'_succ]
  have hauthor : authorFetchedPageNumbers T =
      List.range' 1 (ceilDiv T DEFAULT_AUTHOR_BOOKS_PER_PAGE) := by
    rw [authorFetchedPageNumbers, Nat.add_sub_cancel]
  refine ⟨rfl, hfetch, ?_, hauthor, ?_⟩
  · rw [hfetch, List.length_range']
  · rw [hauthor, List.length_range']

/-- C5 witness: the amended page arithmetic at `T = 250`: the computed page
count is 4 but only pages 1, 2, 3 are fetched. -/
theorem c5_page_count_exclusive_bound_witness :
    0 < 250 ∧
    seriesFetchedPageNumbers 250 =
      List.range' 1 (ceilDiv 250 DEFAULT_SERIES_BOOKS_PER_PAGE) :=
  ⟨by decide, (c5_page_count_exclusive_bound 250 (by decide)).2.1⟩

/-- A URL whose path lacks the series identifier pattern. -/
def badSeriesUrl : String := "https://www.goodreads.com/series/oops"

/-- A well-formed series URL. -/
def goodSeriesUrl : String :=
  "https://www.goodreads.com/series/49397-james-bond---extended-series"

/-- C8 counterexample: `main` has no try/except around the per-URL loop, so a
`MalformedUrlError` on the first URL of a batch aborts the whole batch — the
second, well-formed URL is never attempted, while the claim requires it to be
attempted after the error is reported. -/
theorem c8_batch_abort_counterexample :
    driverBatch series_url_to_series_id [badSeriesUrl, goodSeriesUrl] =
      .error .MalformedUrlError ∧
    attemptedUrls series_url_to_series_id [badSeriesUrl, goodSeriesUrl] =
      [badSeriesUrl] ∧
    attemptedUrls series_url_to_series_id [badSeriesUrl, goodSeriesUrl] ≠
      [badSeriesUrl, goodSeriesUrl] := by decide

/-- C8 amended: when any per-URL pipeline step fails on a URL of a batch, the
top-level driver propagates the error and ends the run: the batch result is
that error and no URL after the failing one is attempted. -/
theorem c8_first_error_aborts_batch {α : Type}
    (f : String → Except GrapherError α) (u : String) (us : List String)
    (e : GrapherError) (hf : f u = .error e) :
    driverBatch f (u :: us) = .error e ∧ attemptedUrls f (u :: us) = [u] := by
  constructor
  · rw [driverBatch, hf]
  · rw [attemptedUrls, hf]

/-- C8 witness: the amended abort behaviour at the concrete two-URL batch with
a malformed first URL. -/
theorem c8_first_error_aborts_batch_witness :
    series_url_to_series_id badSeriesUrl = .error .MalformedUrlError ∧
    driverBatch series_url_to_series_id (badSeriesUrl :: [goodSeriesUrl]) =
      .error .MalformedUrlError :=
  ⟨by decide,
    (c8_first_error_aborts_batch series_url_to_series_id badSeriesUrl
      [goodSeriesUrl] .MalformedUrlError (by decide)).1⟩

/-- C9 counterexample: with a reported total of 0, series retrieval does yield
the single empty first page, but normalizing the empty record set fails — the
empty DataFrame has no `ratings_sum` column and the attribute access raises —
so the pipeline errors instead of completing with an empty record set; and
author-mode retrieval fetches zero content pages, not a single empty page. -/
theorem c9_total_zero_counterexample :
    seriesPipeline emptySeriesService = .error .AttributeError ∧
    authorFetchedPageNumbers 0 = [] ∧
    (authorFetchedPageNumbers 0).length ≠ 1 := by decide

/-- C9 amended: a reported total of 0 makes the series retriever fetch exactly
page 1 (one empty page) and the author retriever fetch zero content pages;
retrieval itself does not fail, but the subsequent normalization of the empty
record set raises (`AttributeError` on the missing column), so the run fails
rather than completing with an empty record set. -/
theorem c9_total_zero_empty_page_then_error (svc : SeriesService)
    (h0 : svc.seriesWorksCount = 0) (hempty : svc.seriesWorkEntries 1 = []) :
    seriesFetchedPageNumbers svc.seriesWorksCount = [1] ∧
    seriesRawWorks svc = svc.seriesWorkEntries 1 ∧
    seriesPipeline svc = .error .AttributeError ∧
    authorFetchedPageNumbers 0 = [] := by
  have hfetch : seriesFetchedPageNumbers svc.seriesWorksCount = [1] := by
    rw [h0]; decide
  have hraw : seriesRawWorks svc = svc.seriesWorkEntries 1 := by
    rw [seriesRawWorks, hfetch]
    simp
  refine ⟨hfetch, hraw, ?_, by decide⟩
  rw [seriesPipeline, hraw, hempty]
  rfl

/-- C9 witness: the amended behaviour at the concrete empty series service. -/
theorem c9_total_zero_empty_page_then_error_witness :
    emptySeriesService.seriesWorksCount = 0 ∧
    emptySeriesService.seriesWorkEntries 1 = [] ∧
    seriesPipeline emptySeriesService = .error .AttributeError :=
  ⟨rfl, rfl, (c9_total_zero_empty_page_then_error emptySeriesService rfl rfl).2.2.1⟩

/-- C10 counterexample: a run whose reported total is 0 contacts the listing
endpoint only once for page-1 data (the page-less probe); `range(1, 1)` is
empty, so `author_books_for_page` is never called and there is no second
page-1 request. -/
theorem c10_total_zero_single_request_counterexample :
    authorRequestLog emptyAuthorService = [none] ∧
    (authorRequestLog emptyAuthorService).countP isPageOneRequest = 1 ∧
    (authorRequestLog emptyAuthorService).countP isPageOneRequest ≠ 2 := by decide

theorem countP_pageOne_map_some_range (k : Nat) : ∀ s : Nat, 2 ≤ s →
    ((List.range' s k).map some).countP isPageOneRequest = 0 := by
  induction k with
  | zero => intro s _; rfl
  | succ k ih =>
    intro s hs
    rw [List.range'_succ, List.map_cons, List.countP_cons, ih (s + 1) (by omega)]
    have hzero : isPageOneRequest (some s) = false := by
      rw [isPageOneRequest]
      simp
      omega
    rw [hzero]
    simp

/-- C10 amended: in every author-mode run whose reported total is positive,
the listing endpoint is contacted twice for page-1 data — the page-less probe
`author_books_total_pages` reads the total, and `author_books_all_pages` then
requests page 1 again through `author_books_for_page` — and the first page's
records in the result come from that second, separate request, so correctness
relies on the two reads returning identical data. -/
theorem c10_page_one_requested_twice (svc : AuthorService) (hT : 0 < svc.total) :
    authorRequestLog svc =
      none :: some 1 ::
        (List.range' 2 (ceilDiv svc.total DEFAULT_AUTHOR_BOOKS_PER_PAGE - 1)).map some ∧
    (authorRequestLog svc).countP isPageOneRequest = 2 ∧
    author_books_all_pages svc =
      author_books_for_page svc 1 ++
        ((List.range' 2 (ceilDiv svc.total DEFAULT_AUTHOR_BOOKS_PER_PAGE - 1)).map
          (author_books_for_page svc)).flatten := by
  have hc : 0 < ceilDiv svc.total DEFAULT_AUTHOR_BOOKS_PER_PAGE :=
    ceilDiv_pos svc.total _ (by norm_num [DEFAULT_AUTHOR_BOOKS_PER_PAGE]) hT
  obtain ⟨k, hk⟩ : ∃ k, ceilDiv svc.total DEFAULT_AUTHOR_BOOKS_PER_PAGE = k + 1 :=
    ⟨ceilDiv svc.total DEFAULT_AUTHOR_BOOKS_PER_PAGE - 1, by omega⟩
  have hrange : List.range' 1 (author_books_total_pages svc - 1) =
      1 :: List.range' 2 (ceilDiv svc.total DEFAULT_AUTHOR_BOOKS_PER_PAGE - 1) := by
    rw [author_books_total_pages, Nat.add_sub_cancel, hk, List.range'_succ]
    simp
  have hlog : authorRequestLog svc =
      none :: some 1 ::
        (List.range' 2 (ceilDiv svc.total DEFAULT_AUTHOR_BOOKS_PER_PAGE - 1)).map some := by
    rw [authorRequestLog, hrange, List.map_cons]
  refine ⟨hlog, ?_, ?_⟩
  · rw [hlog, List.countP_cons, List.countP_cons,
      countP_pageOne_map_some_range _ 2 (by omega)]
    rfl
  · rw [author_books_all_pages, hrange, List.map_cons, List.flatten_cons]

/-- C10 witness: the amended double-request behaviour at a concrete service
with total 30 (one content page). -/
theorem c10_page_one_requested_twice_witness :
    0 < thirtyAuthorService.total ∧
    (authorRequestLog thirtyAuthorService).countP isPageOneRequest = 2 :=
  ⟨by decide, (c10_page_one_requested_twice thirtyAuthorService (by decide)).2.1⟩

end GoodreadsGrapher
